import Mathlib

/-!
Verification development for the OT scheduling portal
(`src/AI_tool/streamlit_app.py`).  The Python program is shallowly
embedded: Python strings become `List Char`, JSON values become an
inductive type, the stateful Streamlit calls (`st.error`, `st.warning`,
`st.toast`, `st.success`) become an emitted message list, and the two
external effectful boundaries (the generative-model call and the
calendar `insert` call) become explicit parameters of the environment.
-/

set_option maxRecDepth 8000

namespace OTPortal

/-- Python strings are modelled as lists of unicode characters
(Python `str` indexing/slicing is by code point, matching `List Char`). -/
abbrev Str := List Char

/-! ### Python string primitives used by the program -/

/-- Whitespace characters recognised by Python `str.strip()` (ASCII subset;
the program only ever strips ASCII whitespace produced by the model fences). -/
def pyIsSpace (c : Char) : Bool :=
  c = ' ' || c = '\t' || c = '\n' || c = '\r' || c = '\x0b' || c = '\x0c'

/-- Python `str.strip()`: drop leading and trailing whitespace. -/
def pyStrip (l : Str) : Str :=
  ((l.dropWhile pyIsSpace).reverse.dropWhile pyIsSpace).reverse

/-- Worker for Python `str.replace(old, new)`: scan left to right, replace
each non-overlapping occurrence of `pat`, never rescanning the replacement.
`fuel` makes the recursion structural; `fuel = length` always suffices
because every step consumes at least one character. -/
def pyReplaceAux (pat rep : Str) : Nat → Str → Str
  | _, [] => []
  | 0, l => l
  | fuel + 1, c :: rest =>
    if pat.isPrefixOf (c :: rest) ∧ pat ≠ [] then
      rep ++ pyReplaceAux pat rep fuel (rest.drop (pat.length - 1))
    else
      c :: pyReplaceAux pat rep fuel rest

/-- Python `s.replace(pat, rep)` (for the nonempty patterns the program uses). -/
def pyReplace (s pat rep : Str) : Str :=
  pyReplaceAux pat rep s.length s

/-- The backtick character (U+0060), spelled by code point. -/
def btick : Char := Char.ofNat 96

/-! ### JSON values and `json.loads`

Python `json.loads` is modelled by a recursive-descent parser over a
faithful subset of JSON: numbers are integers (no fractions/exponents —
the program's prompts and claims never involve floats) and strings carry
no escape sequences.  The subset is sound: whatever the model parser
accepts, Python's parser accepts with the same shape. -/

/-- A parsed JSON value (the shape `json.loads` returns). -/
inductive JValue where
  | null
  | bool (b : Bool)
  | num (n : Int)
  | str (s : Str)
  | arr (elems : List JValue)
  | obj (fields : List (Str × JValue))

/-- JSON whitespace. -/
def jsonWs (c : Char) : Bool :=
  c = ' ' || c = '\t' || c = '\n' || c = '\r'

/-- Skip leading JSON whitespace. -/
def skipWs : Str → Str
  | [] => []
  | c :: rest => if jsonWs c then skipWs rest else c :: rest

/-- Opening brace character (U+007B). -/
def lbraceC : Char := Char.ofNat 123

/-- Closing brace character (U+007D). -/
def rbraceC : Char := Char.ofNat 125

/-- Parse the body of a JSON string after the opening quote; returns the
string contents and the rest of the input past the closing quote.
Escape sequences are outside the modelled subset and rejected. -/
def parseStringBody : Str → Option (Str × Str)
  | [] => none
  | c :: rest =>
    if c = '"' then some ([], rest)
    else if c = '\\' || c.toNat < 32 then none
    else
      match parseStringBody rest with
      | some (s, r) => some (c :: s, r)
      | none => none

/-- Numeric value of a digit string. -/
def digitsVal (l : Str) : Nat :=
  l.foldl (fun a c => a * 10 + (c.toNat - 48)) 0

/-- Parse a JSON integer literal (optional minus; no leading zeros;
fractions and exponents rejected as outside the modelled subset). -/
def parseNumberBody (l : Str) : Option (Int × Str) :=
  let signAndRest : Bool × Str :=
    match l with
    | '-' :: r => (true, r)
    | _ => (false, l)
  let neg := signAndRest.1
  let l₁ := signAndRest.2
  match l₁ with
  | [] => none
  | c :: r =>
    if c = '0' then
      match r with
      | [] => some (0, [])
      | d :: _ =>
        if d.isDigit || d = '.' || d = 'e' || d = 'E' then none else some (0, r)
    else if c.isDigit then
      let ds := (c :: r).takeWhile Char.isDigit
      let rest := (c :: r).dropWhile Char.isDigit
      let v : Int := (digitsVal ds : Nat)
      match rest with
      | [] => some (if neg then -v else v, [])
      | d :: _ =>
        if d = '.' || d = 'e' || d = 'E' then none
        else some (if neg then -v else v, rest)
    else none

/-- The triple of mutually recursive JSON parsers (value, array elements,
object members), built by structural recursion on fuel so that the kernel
can evaluate them.  Each parser expects leading whitespace already
consumed and returns the parsed piece plus the remaining input. -/
def jsonParsers : Nat →
    (Str → Option (JValue × Str)) ×
    (Str → Option (List JValue × Str)) ×
    (Str → Option (List (Str × JValue) × Str))
  | 0 => (fun _ => none, fun _ => none, fun _ => none)
  | fuel + 1 =>
    let pv := (jsonParsers fuel).1
    let pa := (jsonParsers fuel).2.1
    let po := (jsonParsers fuel).2.2
    ( fun l =>
        match l with
        | [] => none
        | c :: rest =>
          if c = '"' then
            match parseStringBody rest with
            | some (s, r) => some (.str s, r)
            | none => none
          else if c = '[' then
            match skipWs rest with
            | ']' :: r₂ => some (.arr [], r₂)
            | r₁ =>
              match pa r₁ with
              | some (elems, r₂) => some (.arr elems, r₂)
              | none => none
          else if c = lbraceC then
            match skipWs rest with
            | [] => none
            | d :: r₂ =>
              if d = rbraceC then some (.obj [], r₂)
              else
                match po (d :: r₂) with
                | some (fs, r₃) => some (.obj fs, r₃)
                | none => none
          else if ("true".toList).isPrefixOf l then some (.bool true, l.drop 4)
          else if ("false".toList).isPrefixOf l then some (.bool false, l.drop 5)
          else if ("null".toList).isPrefixOf l then some (.null, l.drop 4)
          else
            match parseNumberBody l with
            | some (n, r) => some (.num n, r)
            | none => none
    , fun l =>
        match pv l with
        | some (v, r) =>
          (match skipWs r with
          | ',' :: r₂ =>
            match pa (skipWs r₂) with
            | some (vs, r₃) => some (v :: vs, r₃)
            | none => none
          | ']' :: r₂ => some ([v], r₂)
          | _ => none)
        | none => none
    , fun l =>
        match l with
        | [] => none
        | c :: rest =>
          if c = '"' then
            match parseStringBody rest with
            | some (k, r) =>
              (match skipWs r with
              | ':' :: r₂ =>
                (match pv (skipWs r₂) with
                | some (v, r₃) =>
                  (match skipWs r₃ with
                  | ',' :: r₄ =>
                    (match po (skipWs r₄) with
                    | some (fs, r₅) => some ((k, v) :: fs, r₅)
                    | none => none)
                  | d :: r₄ => if d = rbraceC then some ([(k, v)], r₄) else none
                  | [] => none)
                | none => none)
              | _ => none)
            | none => none
          else none )

/-- Python `json.loads`: parse one JSON value surrounded by optional
whitespace; anything left over is a parse error. -/
def jsonLoads (s : Str) : Option JValue :=
  match (jsonParsers (s.length + 1)).1 (skipWs s) with
  | some (v, r) => if skipWs r = [] then some v else none
  | none => none

/-! ### Python dynamic semantics used by the program

The program manipulates `json.loads` results with Python's dynamically
typed operations; each one is embedded with its exception behaviour. -/

/-- Python exceptions that the embedded operations can raise. -/
inductive PyExc where
  | keyError (k : Str)
  | typeError
  | attributeError
deriving DecidableEq

/-- Python truthiness (`bool(x)`) for JSON-shaped values. -/
def pyTruthy : JValue → Bool
  | .null => false
  | .bool b => b
  | .num n => n ≠ 0
  | .str s => s ≠ []
  | .arr l => !l.isEmpty
  | .obj l => !l.isEmpty

/-- Lookup in a parsed JSON object, matching Python dict semantics
(later duplicate keys override earlier ones). -/
def dictLookup (fields : List (Str × JValue)) (k : Str) : Option JValue :=
  match fields.reverse.find? (fun p => p.1 == k) with
  | some p => some p.2
  | none => none

/-- Python `x[k]` for a string key `k`: dict lookup (KeyError when the key
is absent), TypeError on every non-dict value. -/
def pySubscript (v : JValue) (k : Str) : Except PyExc JValue :=
  match v with
  | .obj fields =>
    match dictLookup fields k with
    | some x => .ok x
    | none => .error (.keyError k)
  | _ => .error .typeError

/-- Python `x.get(k, dflt)`: only dicts have `.get` (AttributeError
otherwise). -/
def pyGetDefault (v : JValue) (k : Str) (dflt : JValue) : Except PyExc JValue :=
  match v with
  | .obj fields => .ok ((dictLookup fields k).getD dflt)
  | _ => .error .attributeError

/-- Python `k in x` for a string `k`: key membership for dicts, substring
test for strings, element equality for lists (a string compares equal
only to an equal string), TypeError for non-containers. -/
def pyContains (v : JValue) (k : Str) : Except PyExc Bool :=
  match v with
  | .obj fields => .ok (dictLookup fields k).isSome
  | .str s => .ok (decide (k <:+: s))
  | .arr elems =>
    .ok (elems.any (fun e =>
      match e with
      | .str s => s == k
      | _ => false))
  | _ => .error .typeError

/-- Python `for _ in x`: lists iterate elements, strings iterate
one-character strings, dicts iterate their keys; other values raise
TypeError. -/
def pyIter : JValue → Except PyExc (List JValue)
  | .arr elems => .ok elems
  | .str s => .ok (s.map (fun c => .str [c]))
  | .obj fields => .ok (((fields.map Prod.fst).dedup).map JValue.str)
  | _ => .error .typeError

/-! ### User-visible messages

Streamlit feedback calls are abstracted to one constructor per call
site; the interpolated runtime text (exception reprs, the event summary)
is UI formatting and not modelled. -/

/-- One constructor per `st.error` / `st.warning` / `st.toast` /
`st.success` call site in `streamlit_app.py`. -/
inductive Msg where
  /-- Models `st.error(f"AI 解析失敗: {e}")`, line 87. -/
  | errorAIParseFail
  /-- Models `st.warning("⚠️ AI 沒找到任何活動。")`, line 91. -/
  | warningNoEvents
  /-- Models `st.error("❌ 憑證過期且無法自動更新，請聯絡管理員更新 Token。")`, line 55. -/
  | errorCredsRefresh
  /-- Models `st.error("❌ 找不到有效的憑證，請檢查 Secrets 設定。")`, line 58. -/
  | errorCredsInvalid
  /-- Models `st.toast(f"✅ 已建立：{event['summary']}")`, line 107. -/
  | toastCreated
  /-- Models `st.error(f"建立失敗: {e}")`, line 110. -/
  | errorInsertFail
  /-- Models `st.success(f"🎉 成功加入 {n} 個行程到日曆！")`, line 113. -/
  | successAdded (n : Nat)
  /-- Models `st.error("無法讀取 PDF 文字")`, line 139. -/
  | errorPdfUnreadable
deriving DecidableEq

/-- Whether a message is rendered through `st.error` (as opposed to the
informational `st.warning` / `st.toast` / `st.success`). -/
def Msg.isError : Msg → Bool
  | .errorAIParseFail => true
  | .errorCredsRefresh => true
  | .errorCredsInvalid => true
  | .errorInsertFail => true
  | .errorPdfUnreadable => true
  | .warningNoEvents => false
  | .toastCreated => false
  | .successAdded _ => false

/-! ### Calendar client factory (`get_calendar_service`, lines 42-61) -/

/-- The in-memory credential object built from `TOKEN_DICT`
(`Credentials.from_authorized_user_info`), abstracted to the four
observations the code makes of it: `creds.valid`, `creds.expired`,
truthiness of `creds.refresh_token`, and whether `creds.refresh(Request())`
would succeed. -/
structure CredState where
  valid : Bool
  expired : Bool
  refreshToken : Bool
  refreshOk : Bool
deriving DecidableEq, Fintype

/-- Embeds `SCOPES = ['https://www.googleapis.com/auth/calendar']`, line 28. -/
def SCOPES : List Str := ["https://www.googleapis.com/auth/calendar".toList]

/-- The calendar service handle returned by `build('calendar', 'v3',
credentials=creds)`, observed through the scopes its credentials carry. -/
structure Service where
  scopes : List Str
deriving DecidableEq

/-- Outcome of one `get_calendar_service()` call: the optional handle, the
messages shown, and whether `creds.refresh(Request())` was attempted. -/
structure CalServiceResult where
  service : Option Service
  msgs : List Msg
  refreshAttempted : Bool
deriving DecidableEq

/-- Embedding of `get_calendar_service` (lines 42-61).  Here `tok = none` models a falsy
`TOKEN_DICT` (no credential object is built); otherwise `tok` carries the
credential's observable state. -/
def get_calendar_service (tok : Option CredState) : CalServiceResult :=
  match tok with
  | none => ⟨none, [.errorCredsInvalid], false⟩
  | some c =>
    if c.valid then ⟨some ⟨SCOPES⟩, [], false⟩
    else if c.expired ∧ c.refreshToken then
      if c.refreshOk then ⟨some ⟨SCOPES⟩, [], true⟩
      else ⟨none, [.errorCredsRefresh], true⟩
    else ⟨none, [.errorCredsInvalid], false⟩

/-! ### Scheduling analyzer and calendar writer (`analyze_and_schedule`) -/

/-- Literal prompt text before the interpolated `{now}` (line 68-69). -/
def promptPart1 : Str := "\n        現在時間：".toList

/-- Literal prompt text between `{now}` and `{content[:5000]}`
(lines 69-79; `\x7b`/`\x7d` are the braces the f-string's `{{`/`}}`
render to). -/
def promptPart2 : Str :=
  ("\n        請分析內容，提取「行事曆活動」。\n        【規則】\n        1. 相對時間(明天、週五)請轉為 ISO 8601 日期 (YYYY-MM-DDTHH:MM:SS)。\n        2. 若無結束時間，預設為開始後 1 小時。\n        3. 回傳純 JSON。\n        \n        【範例】\n        \x7b \"events\": [ \x7b \"summary\": \"標題\", \"start_time\": \"2026-01-20T10:00:00\", \"end_time\": \"2026-01-20T11:00:00\" \x7d ] \x7d\n\n        內容：".toList)

/-- Literal prompt text after `{content[:5000]}` (line 79-80). -/
def promptPart3 : Str := "\n        ".toList

/-- The prompt f-string (lines 68-80): the only part of `content` it
embeds is the slice `content[:5000]`. -/
def promptOf (now content : Str) : Str :=
  promptPart1 ++ now ++ promptPart2 ++ content.take 5000 ++ promptPart3

/-- The run environment: the model's reply to a given prompt (`none`
models `generate_content` raising), the credential state, and whether the
i-th `events().insert(...).execute()` call succeeds. -/
structure Env where
  modelReply : Str → Option Str
  tokenDict : Option CredState
  insertOk : Nat → Bool

/-- Key `'summary'`. -/
def summaryK : Str := "summary".toList

/-- Key `'start_time'`. -/
def startK : Str := "start_time".toList

/-- Key `'end_time'`. -/
def endK : Str := "end_time".toList

/-- Key `'events'`. -/
def eventsK : Str := "events".toList

/-- The placeholder title `'新活動'` (line 102). -/
def defaultTitle : Str := "新活動".toList

/-- The fixed timezone `'Asia/Taipei'` (lines 103-104). -/
def taipeiTZ : Str := "Asia/Taipei".toList

/-- The body dict built for one event (lines 101-105). -/
structure EventBody where
  summary : JValue
  startTime : JValue
  endTime : JValue
  timeZoneStart : Str
  timeZoneEnd : Str

/-- One `events().insert(calendarId='primary', body=body)` request
(line 106). -/
structure InsertRequest where
  calendarId : Str
  body : EventBody

/-- Build the body dict of lines 101-105, with Python's evaluation order:
`event.get('summary', '新活動')`, then `event['start_time']`, then the
eagerly evaluated default argument `event['start_time']` of
`event.get('end_time', ...)`.  Any raise propagates to the per-event
`except` handler. -/
def buildBody (event : JValue) : Except PyExc EventBody :=
  match pyGetDefault event summaryK (.str defaultTitle) with
  | .error e => .error e
  | .ok s =>
    match pySubscript event startK with
    | .error e => .error e
    | .ok st =>
      match pySubscript event startK with
      | .error e => .error e
      | .ok d =>
        match pyGetDefault event endK d with
        | .error e => .error e
        | .ok en => .ok ⟨s, st, en, taipeiTZ, taipeiTZ⟩

/-- What one loop iteration produced. -/
structure StepResult where
  msgs : List Msg
  requests : List InsertRequest
  counted : Bool

/-- One iteration of the `for event in data['events']` loop
(lines 99-110): build the body, issue the insert, toast with
`event['summary']` (an access that can itself raise), count the success;
every raise inside the `try` lands in the `except` which shows
`建立失敗` and moves on. -/
def processEvent (insOk : Bool) (event : JValue) : StepResult :=
  match buildBody event with
  | .error _ => ⟨[.errorInsertFail], [], false⟩
  | .ok body =>
    let req : InsertRequest := ⟨"primary".toList, body⟩
    if insOk then
      match pySubscript event summaryK with
      | .ok _ => ⟨[.toastCreated], [req], true⟩
      | .error _ => ⟨[.errorInsertFail], [req], false⟩
    else ⟨[.errorInsertFail], [req], false⟩

/-- The writer loop over the event list, threading the index used to
consult the per-call insert outcome. -/
def writerLoop (insertOk : Nat → Bool) : Nat → List JValue → List Msg × List InsertRequest × Nat
  | _, [] => ([], [], 0)
  | i, ev :: rest =>
    let r := processEvent (insertOk i) ev
    let (ms, reqs, n) := writerLoop insertOk (i + 1) rest
    (r.msgs ++ ms, r.requests ++ reqs, (if r.counted then 1 else 0) + n)

/-- Lines 98-114: run the loop, then show the aggregate success message
only when `success_count > 0`. -/
def calendarWriter (insertOk : Nat → Bool) (events : List JValue) :
    List Msg × List InsertRequest :=
  let r := writerLoop insertOk 0 events
  (r.1 ++ (if r.2.2 > 0 then [Msg.successAdded r.2.2] else []), r.2.1)

/-- The cleanup of line 84:
`response.text.replace("```json", "").replace("```", "").strip()`. -/
def cleanReply (t : Str) : Str :=
  pyStrip (pyReplace (pyReplace t ("```json".toList) []) ("```".toList) [])

/-- Everything one `analyze_and_schedule(content)` invocation did. -/
structure FlowResult where
  prompt : Str
  msgs : List Msg
  requests : List InsertRequest
  serviceRequested : Bool
  uncaught : Bool

/-- Embedding of `analyze_and_schedule` (lines 63-114).  The `try` of lines 82-88
covers the model call, the fence cleanup and `json.loads`; the guard of
line 90 short-circuits (`not data` before the membership test, whose
TypeError on truthy non-containers is not caught by anything); the
service is only requested after the guard passes, and `data['events']`
is only read after a service handle exists. -/
def analyze_and_schedule (env : Env) (content now : Str) : FlowResult :=
  let prompt := promptOf now content
  match env.modelReply prompt with
  | none => ⟨prompt, [.errorAIParseFail], [], false, false⟩
  | some reply =>
    match jsonLoads (cleanReply reply) with
    | none => ⟨prompt, [.errorAIParseFail], [], false, false⟩
    | some data =>
      if pyTruthy data then
        match pyContains data eventsK with
        | .error _ => ⟨prompt, [], [], false, true⟩
        | .ok false => ⟨prompt, [.warningNoEvents], [], false, false⟩
        | .ok true =>
          let cs := get_calendar_service env.tokenDict
          match cs.service with
          | none => ⟨prompt, cs.msgs, [], true, false⟩
          | some _ =>
            match pySubscript data eventsK with
            | .error _ => ⟨prompt, cs.msgs, [], true, true⟩
            | .ok evs =>
              match pyIter evs with
              | .error _ => ⟨prompt, cs.msgs, [], true, true⟩
              | .ok events =>
                let wr := calendarWriter env.insertOk events
                ⟨prompt, cs.msgs ++ wr.1, wr.2, true, false⟩
      else ⟨prompt, [.warningNoEvents], [], false, false⟩

/-! ### Text extractor and the PDF tab (lines 31-40 and 131-139) -/

/-- Embedding of `extract_text_from_pdf` (lines 31-40).  The document is observed as
`none` when `pdfplumber` raises, else as the list of per-page
`extract_text()` results (`none` or a string each); pages with falsy text
are skipped, others contribute `text + "\n"`. -/
def extract_text_from_pdf (doc : Option (List (Option Str))) : Option Str :=
  match doc with
  | none => none
  | some pages =>
    some (pages.foldl
      (fun acc p =>
        match p with
        | some t => if t ≠ [] then acc ++ t ++ ['\n'] else acc
        | none => acc)
      [])

/-- Outcome of pressing the PDF tab's button (lines 134-139): the
messages shown, whether the model pipeline ran, and its result if so. -/
structure Tab2Result where
  msgs : List Msg
  modelCalled : Bool
  flow : Option FlowResult

/-- The `tab2` click handler (lines 134-139): extract, then
`if text: analyze_and_schedule(text) else: st.error(...)`. -/
def tab2_on_click (env : Env) (now : Str) (doc : Option (List (Option Str))) :
    Tab2Result :=
  match extract_text_from_pdf doc with
  | some t =>
    if t ≠ [] then
      let r := analyze_and_schedule env t now
      ⟨r.msgs, true, some r⟩
    else ⟨[.errorPdfUnreadable], false, none⟩
  | none => ⟨[.errorPdfUnreadable], false, none⟩

/-! ### Concrete scenarios used by the claims -/

/-- The three Event Candidates of the C4 scenario. -/
def c4Events : List JValue :=
  [.obj [(summaryK, .str ("A".toList)), (startK, .str ("s1".toList))],
   .obj [(summaryK, .str ("B".toList)), (startK, .str ("s2".toList))],
   .obj [(summaryK, .str ("C".toList)), (startK, .str ("s3".toList))]]

/-- Insert outcomes for the C4 scenario: only the second call fails. -/
def c4InsertOk : Nat → Bool := fun i => i ≠ 1

/-- The Event Candidate of the C1 counterexample: a start time but no end
time. -/
def c1Event : JValue :=
  .obj [(summaryK, .str ("會議".toList)), (startK, .str ("2026-01-20T10:00:00".toList))]

/-- Environment of the C3 counterexample: valid credentials and a model
reply whose events list is empty. -/
def c3Env : Env :=
  ⟨fun _ => some ("\x7b\"events\": []\x7d".toList), some ⟨true, false, false, true⟩,
   fun _ => true⟩

/-- Environment of the C5 counterexample: the model replies `5`. -/
def c5Env : Env :=
  ⟨fun _ => some ("5".toList), some ⟨true, false, false, true⟩, fun _ => true⟩

/-! ## Theorems about the embedded program -/

/-- Every control path of `analyze_and_schedule` records the same prompt:
the f-string of lines 68-80. -/
theorem flow_prompt_eq (env : Env) (content now : Str) :
    (analyze_and_schedule env content now).prompt = promptOf now content := by
  unfold analyze_and_schedule
  dsimp only
  repeat' split
  all_goals rfl

/-- C8: the prompt sent to the language model embeds exactly the slice
`content[:5000]` — a prefix of the input of length at most 5000
characters — between the fixed template parts; text beyond the
5000-character limit never appears in the prompt. -/
theorem c8_prompt_truncates_input (env : Env) (content now : Str) :
    (analyze_and_schedule env content now).prompt
      = promptPart1 ++ now ++ promptPart2 ++ content.take 5000 ++ promptPart3 ∧
    (content.take 5000).length ≤ 5000 ∧
    content.take 5000 <+: content :=
  ⟨flow_prompt_eq env content now,
   by rw [List.length_take]; exact Nat.min_le_left _ _,
   List.take_prefix 5000 content⟩

/-- Refresh is attempted only on an existing, invalid, expired credential
that carries a refresh token. -/
theorem service_refresh_only_when (tok : Option CredState)
    (h : (get_calendar_service tok).refreshAttempted = true) :
    ∃ c, tok = some c ∧ c.valid = false ∧ c.expired = true ∧ c.refreshToken = true := by
  rcases tok with - | ⟨v, e, rt, ok⟩
  · simp [get_calendar_service] at h
  · cases v <;> cases e <;> cases rt <;> cases ok <;>
      simp_all [get_calendar_service]

/-- Every message the factory can emit goes through `st.error`. -/
theorem service_msgs_are_errors (tok : Option CredState) :
    ∀ m ∈ (get_calendar_service tok).msgs, m.isError = true := by
  rcases tok with - | ⟨v, e, rt, ok⟩
  · simp [get_calendar_service, Msg.isError]
  · cases v <;> cases e <;> cases rt <;> cases ok <;>
      simp_all [get_calendar_service, Msg.isError]

/-- C7: the calendar client factory attempts a token refresh only when a
credential exists, is expired (and invalid) and carries a refresh token;
a missing credential, any other invalid credential, and a failing refresh
each yield a credential error message and no service handle; a returned
handle is always bound to the fixed calendar read/write scope. -/
theorem c7_calendar_client_factory (tok : Option CredState) :
    ((get_calendar_service tok).refreshAttempted = true →
      ∃ c, tok = some c ∧ c.valid = false ∧ c.expired = true ∧ c.refreshToken = true) ∧
    (tok = none →
      (get_calendar_service tok).service = none ∧
      (get_calendar_service tok).msgs = [Msg.errorCredsInvalid]) ∧
    (∀ c, tok = some c → c.valid = false →
      (c.expired = true ∧ c.refreshToken = true → False) →
      (get_calendar_service tok).service = none ∧
      (get_calendar_service tok).msgs = [Msg.errorCredsInvalid]) ∧
    (∀ c, tok = some c → c.valid = false → c.expired = true → c.refreshToken = true →
      c.refreshOk = false →
      (get_calendar_service tok).service = none ∧
      (get_calendar_service tok).msgs = [Msg.errorCredsRefresh]) ∧
    (∀ s, (get_calendar_service tok).service = some s → s.scopes = SCOPES) := by
  refine ⟨service_refresh_only_when tok, ?_, ?_, ?_, ?_⟩
  · rintro rfl
    simp [get_calendar_service]
  · rintro ⟨v, e, rt, ok⟩ rfl hv hne
    cases e <;> cases rt <;> simp_all [get_calendar_service]
  · rintro ⟨v, e, rt, ok⟩ rfl hv he hrt hok
    simp_all [get_calendar_service]
  · rcases tok with - | ⟨v, e, rt, ok⟩
    · simp [get_calendar_service]
    · cases v <;> cases e <;> cases rt <;> cases ok <;>
        simp_all [get_calendar_service]

/-- Witness for C7: an expired credential with a refresh token whose
refresh fails yields no handle and the refresh-failure error. -/
theorem c7_calendar_client_factory_witness :
    (get_calendar_service (some ⟨false, true, true, false⟩)).service = none ∧
    (get_calendar_service (some ⟨false, true, true, false⟩)).msgs = [Msg.errorCredsRefresh] :=
  (c7_calendar_client_factory (some ⟨false, true, true, false⟩)).2.2.2.1
    ⟨false, true, true, false⟩ rfl rfl rfl rfl rfl

/-- Pages with no recoverable text contribute nothing to the fold of
lines 35-37. -/
theorem extract_fold_empty (pages : List (Option Str)) (acc : Str)
    (h : ∀ p ∈ pages, p = none ∨ p = some []) :
    pages.foldl
      (fun acc p =>
        match p with
        | some t => if t ≠ [] then acc ++ t ++ ['\n'] else acc
        | none => acc)
      acc = acc := by
  induction pages generalizing acc with
  | nil => rfl
  | cons p rest ih =>
    rcases h p (by simp) with rfl | rfl
    · exact ih acc (fun q hq => h q (by simp [hq]))
    · simpa using ih acc (fun q hq => h q (by simp [hq]))

/-- A document none of whose pages yields text extracts to the empty
string. -/
theorem extract_no_text (pages : List (Option Str))
    (h : ∀ p ∈ pages, p = none ∨ p = some []) :
    extract_text_from_pdf (some pages) = some [] := by
  unfold extract_text_from_pdf
  dsimp only
  rw [extract_fold_empty pages [] h]

/-- C6: a document yielding no extractable text (unopenable, or all pages
empty) makes the extraction step return the failure marker (`None`, or the
falsy empty string), and the PDF tab halts with the user-visible
`st.error` without ever running the analyzer (so the language model is
never invoked). -/
theorem c6_no_text_halts (env : Env) (now : Str) (doc : Option (List (Option Str)))
    (h : doc = none ∨ ∃ pages, doc = some pages ∧ ∀ p ∈ pages, p = none ∨ p = some []) :
    (extract_text_from_pdf doc = none ∨ extract_text_from_pdf doc = some []) ∧
    tab2_on_click env now doc = ⟨[Msg.errorPdfUnreadable], false, none⟩ ∧
    Msg.errorPdfUnreadable.isError = true := by
  rcases h with rfl | ⟨pages, rfl, hpages⟩
  · exact ⟨Or.inl rfl, rfl, rfl⟩
  · have he := extract_no_text pages hpages
    refine ⟨Or.inr he, ?_, rfl⟩
    unfold tab2_on_click
    rw [he]
    rfl

/-- Witness for C6 at a two-page document with no recoverable text. -/
theorem c6_no_text_halts_witness :
    (extract_text_from_pdf (some [none, some []]) = none ∨
      extract_text_from_pdf (some [none, some []]) = some []) ∧
    tab2_on_click ⟨fun _ => none, none, fun _ => true⟩ [] (some [none, some []])
      = ⟨[Msg.errorPdfUnreadable], false, none⟩ ∧
    Msg.errorPdfUnreadable.isError = true :=
  c6_no_text_halts ⟨fun _ => none, none, fun _ => true⟩ [] (some [none, some []])
    (Or.inr ⟨[none, some []], rfl, by intro p hp; simpa using hp⟩)

/-- Each loop iteration shows exactly one per-event message (a toast or a
`建立失敗` error). -/
theorem processEvent_one_msg (b : Bool) (ev : JValue) :
    (processEvent b ev).msgs.length = 1 := by
  unfold processEvent
  repeat' split
  all_goals rfl

/-- C4: the per-event `try/except` isolates failures — every candidate
produces exactly one per-event report, so the loop never aborts early; in
the 3-candidate scenario where only the 2nd insertion fails, all 3
inserts are attempted, exactly one failure message is shown, and the
aggregate success message reports exactly 2 creations. -/
theorem c4_failures_isolated :
    (∀ (insertOk : Nat → Bool) (i : Nat) (events : List JValue),
      (writerLoop insertOk i events).1.length = events.length) ∧
    (calendarWriter c4InsertOk c4Events).2.length = 3 ∧
    (calendarWriter c4InsertOk c4Events).1
      = [Msg.toastCreated, Msg.errorInsertFail, Msg.toastCreated, Msg.successAdded 2] ∧
    ((calendarWriter c4InsertOk c4Events).1.filter
        (fun m => m = Msg.errorInsertFail)).length = 1 := by
  refine ⟨?_, rfl, rfl, rfl⟩
  intro insertOk i events
  induction events generalizing i with
  | nil => rfl
  | cons ev rest ih =>
    simp [writerLoop, processEvent_one_msg, ih, Nat.add_comm]

/-- The body built for a dict event with a present start time, computed
in closed form. -/
theorem buildBody_obj (fields : List (Str × JValue)) (st : JValue)
    (hst : dictLookup fields startK = some st) :
    buildBody (.obj fields)
      = .ok ⟨(dictLookup fields summaryK).getD (.str defaultTitle), st,
             (dictLookup fields endK).getD st, taipeiTZ, taipeiTZ⟩ := by
  simp [buildBody, pyGetDefault, pySubscript, hst]

/-- The fields produced by a successful `buildBody`: the fixed timezone
tags both ends, and the summary is the dict lookup with the placeholder
default. -/
theorem buildBody_ok (event : JValue) (body : EventBody)
    (hb : buildBody event = .ok body) :
    body.timeZoneStart = taipeiTZ ∧ body.timeZoneEnd = taipeiTZ ∧
    ∀ fields, event = .obj fields →
      body.summary = (dictLookup fields summaryK).getD (.str defaultTitle) := by
  rcases event with - | b | n | s | elems | fields
  · simp [buildBody, pyGetDefault] at hb
  · simp [buildBody, pyGetDefault] at hb
  · simp [buildBody, pyGetDefault] at hb
  · simp [buildBody, pyGetDefault] at hb
  · simp [buildBody, pyGetDefault] at hb
  · rcases hst : dictLookup fields startK with - | st
    · simp [buildBody, pyGetDefault, pySubscript, hst] at hb
    · rw [buildBody_obj fields st hst] at hb
      obtain rfl := (Except.ok.inj hb).symm
      exact ⟨rfl, rfl, fun f hf => by cases hf; rfl⟩

/-- C10: an Event Candidate without a `summary` key whose insert call
itself succeeds is still reported through the failure handler (the
success toast's `event['summary']` raises KeyError inside the same
`try`), the insert having been issued, and it is not counted toward the
aggregate success count. -/
theorem c10_missing_title_reported_failed (fields : List (Str × JValue)) (s : JValue)
    (hNoTitle : dictLookup fields summaryK = none)
    (hStart : dictLookup fields startK = some s) :
    (processEvent true (.obj fields)).requests.length = 1 ∧
    (processEvent true (.obj fields)).msgs = [Msg.errorInsertFail] ∧
    (processEvent true (.obj fields)).counted = false := by
  simp [processEvent, buildBody, pyGetDefault, pySubscript, hNoTitle, hStart]

/-- Witness for C10: a candidate with only a start time. -/
theorem c10_missing_title_reported_failed_witness :
    (processEvent true (.obj [(startK, .str ("s".toList))])).requests.length = 1 ∧
    (processEvent true (.obj [(startK, .str ("s".toList))])).msgs = [Msg.errorInsertFail] ∧
    (processEvent true (.obj [(startK, .str ("s".toList))])).counted = false :=
  c10_missing_title_reported_failed [(startK, .str ("s".toList))] (.str ("s".toList))
    rfl rfl

/-- C9: every insert request the writer issues targets the fixed
`'primary'` calendar alias, tags both start and end with the same fixed
IANA timezone `'Asia/Taipei'`, and its summary falls back to the
placeholder `'新活動'` when the candidate has no title. -/
theorem c9_insert_request_shape (insOk : Bool) (event : JValue) (req : InsertRequest)
    (hreq : req ∈ (processEvent insOk event).requests) :
    req.calendarId = "primary".toList ∧
    req.body.timeZoneStart = taipeiTZ ∧
    req.body.timeZoneEnd = taipeiTZ ∧
    (∀ fields, event = .obj fields → dictLookup fields summaryK = none →
      req.body.summary = .str defaultTitle) := by
  unfold processEvent at hreq
  rcases hb : buildBody event with e | body <;> rw [hb] at hreq
  · simp at hreq
  · have hshape := buildBody_ok event body hb
    have hr : req = ⟨"primary".toList, body⟩ := by
      dsimp only at hreq
      cases insOk
      · simpa using hreq
      · rcases hs : pySubscript event summaryK with e | sv <;> rw [hs] at hreq <;>
          simpa using hreq
    subst hr
    refine ⟨rfl, hshape.1, hshape.2.1, ?_⟩
    intro fields hf hnone
    have := hshape.2.2 fields hf
    rw [hnone] at this
    exact this

/-- Witness for C9: a title-less candidate processed with a failing
insert still has its request built against the fixed alias, timezone and
placeholder title. -/
theorem c9_insert_request_shape_witness :
    (⟨"primary".toList,
        ⟨.str defaultTitle, .str ("s".toList), .str ("s".toList), taipeiTZ, taipeiTZ⟩⟩
      : InsertRequest).calendarId = "primary".toList ∧
    (⟨"primary".toList,
        ⟨.str defaultTitle, .str ("s".toList), .str ("s".toList), taipeiTZ, taipeiTZ⟩⟩
      : InsertRequest).body.timeZoneStart = taipeiTZ ∧
    (⟨"primary".toList,
        ⟨.str defaultTitle, .str ("s".toList), .str ("s".toList), taipeiTZ, taipeiTZ⟩⟩
      : InsertRequest).body.timeZoneEnd = taipeiTZ ∧
    (∀ fields, JValue.obj [(startK, JValue.str ("s".toList))] = .obj fields →
      dictLookup fields summaryK = none →
      (⟨"primary".toList,
          ⟨.str defaultTitle, .str ("s".toList), .str ("s".toList), taipeiTZ, taipeiTZ⟩⟩
        : InsertRequest).body.summary = .str defaultTitle) :=
  c9_insert_request_shape false (.obj [(startK, .str ("s".toList))])
    ⟨"primary".toList,
      ⟨.str defaultTitle, .str ("s".toList), .str ("s".toList), taipeiTZ, taipeiTZ⟩⟩
    (List.mem_singleton.mpr rfl)

/-- Counterexample to C1 as stated: for a candidate lacking an end time
the submitted end defaults to the start time itself
(`event.get('end_time', event['start_time'])`, line 104) — not to the
start time plus 1 hour, which would be `2026-01-20T11:00:00` here. -/
theorem c1_counterexample :
    buildBody c1Event
      = .ok ⟨.str ("會議".toList), .str ("2026-01-20T10:00:00".toList),
             .str ("2026-01-20T10:00:00".toList), taipeiTZ, taipeiTZ⟩ ∧
    ("2026-01-20T10:00:00".toList : Str) ≠ ("2026-01-20T11:00:00".toList : Str) :=
  ⟨rfl, by decide⟩

/-- C1 amended: for a dict candidate with a (non-null) start time, the
writer submits `end_time` unchanged when present, and defaults it to the
start time exactly when absent — defaulting happens at most once and the
submitted end time is never null. -/
theorem c1_end_defaults_to_start (fields : List (Str × JValue)) (s : JValue)
    (hStart : dictLookup fields startK = some s) (hsn : s ≠ .null) :
    (dictLookup fields endK = none →
      ∃ b, buildBody (.obj fields) = .ok b ∧ b.endTime = s ∧ b.startTime = s ∧
        b.endTime ≠ .null) ∧
    (∀ e, dictLookup fields endK = some e →
      ∃ b, buildBody (.obj fields) = .ok b ∧ b.endTime = e) := by
  constructor
  · intro hEnd
    refine ⟨_, buildBody_obj fields s hStart, ?_, rfl, ?_⟩
    · simp [hEnd]
    · simpa [hEnd] using hsn
  · intro e hEnd
    exact ⟨_, buildBody_obj fields s hStart, by simp [hEnd]⟩

/-- Witness for C1's amended statement at a candidate with only a start
time. -/
theorem c1_end_defaults_to_start_witness :
    ∃ b, buildBody (.obj [(startK, JValue.str ("X".toList))]) = .ok b ∧
      b.endTime = .str ("X".toList) ∧ b.startTime = .str ("X".toList) ∧
      b.endTime ≠ .null :=
  (c1_end_defaults_to_start [(startK, .str ("X".toList))] (.str ("X".toList)) rfl
      (fun h => JValue.noConfusion h)).1 rfl

/-- Counterexample to C3 as stated: with an empty events list the code
makes zero calendar-insert calls but shows no message at all — the user
does not see an informational (or any) message. -/
theorem c3_counterexample :
    (analyze_and_schedule c3Env ("x".toList) ("t".toList)).msgs = [] ∧
    (analyze_and_schedule c3Env ("x".toList) ("t".toList)).requests = [] :=
  ⟨rfl, rfl⟩

/-- C3 amended: an Analysis Result whose events key holds the empty list
yields zero insert requests, and the only messages that can appear are
credential errors from the service lookup — no informational message and
in particular never the no-events warning (with valid credentials the
user sees nothing at all).  A truthy result lacking the events key
instead shows the informational no-events warning with no calendar
interaction. -/
theorem c3_empty_events_behaviour (env : Env) (content now reply : Str)
    (hr : env.modelReply (promptOf now content) = some reply) :
    (∀ fields, jsonLoads (cleanReply reply) = some (.obj fields) →
      dictLookup fields eventsK = some (.arr []) →
      (analyze_and_schedule env content now).requests = [] ∧
      (analyze_and_schedule env content now).msgs
        = (get_calendar_service env.tokenDict).msgs ∧
      (∀ m ∈ (analyze_and_schedule env content now).msgs, m.isError = true) ∧
      Msg.warningNoEvents ∉ (analyze_and_schedule env content now).msgs) ∧
    (∀ data, jsonLoads (cleanReply reply) = some data → pyTruthy data = true →
      pyContains data eventsK = .ok false →
      analyze_and_schedule env content now
        = ⟨promptOf now content, [Msg.warningNoEvents], [], false, false⟩ ∧
      Msg.warningNoEvents.isError = false) := by
  constructor
  · intro fields hjson hlk
    have hfe : fields.isEmpty = false := by
      rcases fields with - | f
      · simp [dictLookup] at hlk
      · rfl
    have htr : pyTruthy (.obj fields) = true := by simp [pyTruthy, hfe]
    have hct : pyContains (.obj fields) eventsK = .ok true := by
      simp [pyContains, hlk]
    have hsub : pySubscript (.obj fields) eventsK = .ok (.arr []) := by
      simp [pySubscript, hlk]
    have hflow :
        (analyze_and_schedule env content now).requests = [] ∧
        (analyze_and_schedule env content now).msgs
          = (get_calendar_service env.tokenDict).msgs := by
      unfold analyze_and_schedule
      dsimp only
      rw [hr]
      dsimp only
      rw [hjson]
      dsimp only
      simp only [htr, if_true, hct, hsub]
      rcases hsvc : (get_calendar_service env.tokenDict).service with - | s
      · exact ⟨rfl, rfl⟩
      · simp [pyIter, calendarWriter, writerLoop]
    refine ⟨hflow.1, hflow.2, ?_, ?_⟩
    · intro m hm
      exact service_msgs_are_errors env.tokenDict m (hflow.2 ▸ hm)
    · intro hm
      have := service_msgs_are_errors env.tokenDict _ (hflow.2 ▸ hm)
      simp [Msg.isError] at this
  · intro data hjson htr hfalse
    unfold analyze_and_schedule
    dsimp only
    rw [hr]
    dsimp only
    rw [hjson]
    dsimp only
    simp only [htr, if_true, hfalse]
    exact ⟨trivial, rfl⟩

/-- Witness for C3's amended statement: the empty-events reply under
valid credentials shows nothing and inserts nothing. -/
theorem c3_empty_events_behaviour_witness :
    (analyze_and_schedule c3Env ("x".toList) ("t".toList)).requests = [] ∧
    (analyze_and_schedule c3Env ("x".toList) ("t".toList)).msgs
      = (get_calendar_service c3Env.tokenDict).msgs ∧
    (∀ m ∈ (analyze_and_schedule c3Env ("x".toList) ("t".toList)).msgs,
      m.isError = true) ∧
    Msg.warningNoEvents ∉ (analyze_and_schedule c3Env ("x".toList) ("t".toList)).msgs :=
  (c3_empty_events_behaviour c3Env ("x".toList) ("t".toList)
      ("\x7b\"events\": []\x7d".toList) rfl).1 [(eventsK, .arr [])] rfl rfl

/-- Counterexample to C5 as stated: the reply `5` cleans to valid JSON of
unexpected shape, yet the code reports no analysis failure (no message at
all) — the membership test of line 90 raises an uncaught TypeError; the
flow does halt and no calendar call of any kind is made. -/
theorem c5_counterexample :
    jsonLoads (cleanReply ("5".toList)) = some (.num 5) ∧
    analyze_and_schedule c5Env ("x".toList) ("t".toList)
      = ⟨promptOf ("t".toList) ("x".toList), [], [], false, true⟩ :=
  ⟨rfl, rfl⟩

/-- C5 amended: a reply whose cleaned text is malformed JSON is reported
through the analysis-failure `st.error` and the invocation halts with no
calendar interaction of any kind (and no retry — the flow makes exactly
one model call by construction); a cleaned reply that parses to a truthy
non-container (an unexpected shape) instead halts via an uncaught
TypeError at line 90's membership test, again with no calendar
interaction but with no analysis-failure report. -/
theorem c5_parse_failure_halts (env : Env) (content now reply : Str)
    (hr : env.modelReply (promptOf now content) = some reply) :
    (jsonLoads (cleanReply reply) = none →
      analyze_and_schedule env content now
        = ⟨promptOf now content, [Msg.errorAIParseFail], [], false, false⟩ ∧
      Msg.errorAIParseFail.isError = true) ∧
    (∀ data e, jsonLoads (cleanReply reply) = some data → pyTruthy data = true →
      pyContains data eventsK = .error e →
      analyze_and_schedule env content now
        = ⟨promptOf now content, [], [], false, true⟩) := by
  constructor
  · intro hnone
    unfold analyze_and_schedule
    dsimp only
    rw [hr]
    dsimp only
    rw [hnone]
    exact ⟨rfl, rfl⟩
  · intro data e hjson htr herr
    unfold analyze_and_schedule
    dsimp only
    rw [hr]
    dsimp only
    rw [hjson]
    dsimp only
    simp only [htr, if_true, herr]

/-- Witness for C5's amended statement at a malformed reply. -/
theorem c5_parse_failure_halts_witness :
    analyze_and_schedule
        ⟨fun _ => some ("not json".toList), some ⟨true, false, false, true⟩,
         fun _ => true⟩
        ("x".toList) ("t".toList)
      = ⟨promptOf ("t".toList) ("x".toList), [Msg.errorAIParseFail], [], false, false⟩ ∧
    Msg.errorAIParseFail.isError = true :=
  (c5_parse_failure_halts
      ⟨fun _ => some ("not json".toList), some ⟨true, false, false, true⟩,
       fun _ => true⟩
      ("x".toList) ("t".toList) ("not json".toList) rfl).1 rfl

/-! ### The fence-stripping cleanup (claim C2)

`str.replace` is a global replacement, so any triple-backtick inside the
JSON payload is also removed; the lemmas below isolate exactly when the
cleanup removes only the wrapper. -/

/-- The fence pattern as an explicit character list. -/
theorem ticks_eq : ("```".toList : Str) = [btick, btick, btick] := rfl

/-- A fence match cannot straddle the `'\n'` boundary: if `v` contains no
triple backtick as a prefix, none starts at the head of `v ++ '\n' :: t`. -/
theorem no_ticks_prefix_boundary (v t : Str) (hv : ¬ ("```".toList <+: v)) :
    ¬ ("```".toList <+: (v ++ '\n' :: t)) := by
  intro hp
  obtain ⟨r, hr⟩ := hp
  rw [ticks_eq] at hr
  simp only [List.cons_append, List.nil_append] at hr
  rcases v with - | ⟨a, v⟩
  · simp only [List.nil_append] at hr
    injection hr with h1 h1t
    exact absurd h1 (by decide)
  · simp only [List.cons_append] at hr
    injection hr with h1 hr
    subst h1
    rcases v with - | ⟨b, v⟩
    · simp only [List.nil_append] at hr
      injection hr with h2 h2t
      exact absurd h2 (by decide)
    · simp only [List.cons_append] at hr
      injection hr with h2 hr
      subst h2
      rcases v with - | ⟨e, v⟩
      · simp only [List.nil_append] at hr
        injection hr with h3 h3t
        exact absurd h3 (by decide)
      · simp only [List.cons_append] at hr
        injection hr with h3 hr
        subst h3
        exact hv ⟨v, by rw [ticks_eq]; rfl⟩

/-- Decompose a suffix of an append. -/
theorem suffix_append_cases {α : Type} (u s t : List α) (h : u <:+ (s ++ t)) :
    u <:+ t ∨ ∃ v, u = v ++ t ∧ v <:+ s := by
  rcases List.suffix_or_suffix_of_suffix h (List.suffix_append s t) with h1 | h1
  · exact Or.inl h1
  · obtain ⟨v, hv⟩ := h1
    obtain ⟨w, hw⟩ := h
    refine Or.inr ⟨v, hv.symm, w, ?_⟩
    have hw' : (w ++ v) ++ t = s ++ t := by rw [List.append_assoc, hv, hw]
    exact List.append_cancel_right hw'

/-- The long fence pattern occurs nowhere in `s ++ '\n' :: "```"` when `s`
contains no triple backtick. -/
theorem no_json_fence_occurs (s : Str) (h : ¬ ("```".toList <:+: s)) :
    ¬ ("```json".toList <:+: (s ++ '\n' :: "```".toList)) := by
  intro hin
  rw [List.infix_iff_prefix_suffix] at hin
  obtain ⟨u, hpre, hsuf⟩ := hin
  rcases suffix_append_cases u s ('\n' :: "```".toList) hsuf with hu | ⟨v, rfl, hv⟩
  · have h7 : ("```json".toList).length ≤ u.length := hpre.length_le
    have h4 : u.length ≤ ('\n' :: "```".toList).length := hu.length_le
    rw [show ("```json".toList).length = 7 from rfl] at h7
    rw [show ('\n' :: "```".toList).length = 4 from rfl] at h4
    omega
  · have hticks : ("```".toList) <+: (v ++ '\n' :: "```".toList) :=
      ( List.isPrefixOf_iff_prefix.mp (by decide :
          ("```".toList).isPrefixOf ("```json".toList) = true)).trans hpre
    have hvno : ¬ ("```".toList <+: v) := fun hpv =>
      h (List.infix_iff_prefix_suffix.mpr ⟨v, hpv, hv⟩)
    exact no_ticks_prefix_boundary v ("```".toList) hvno hticks

/-- The scan `pyReplaceAux` is the identity when the pattern occurs nowhere. -/
theorem pyReplaceAux_no_occurrence (pat rep : Str) :
    ∀ (fuel : Nat) (l : Str), ¬ (pat <:+: l) → pyReplaceAux pat rep fuel l = l := by
  intro fuel
  induction fuel with
  | zero => intro l h; cases l <;> rfl
  | succ n ih =>
    intro l h
    cases l with
    | nil => rfl
    | cons c rest =>
      have hcond : ¬ (pat.isPrefixOf (c :: rest) = true ∧ pat ≠ []) := by
        rintro ⟨hpf, -⟩
        exact h (( List.isPrefixOf_iff_prefix.mp hpf).isInfix)
      rw [pyReplaceAux, if_neg hcond, ih rest (fun hin => h (List.infix_cons hin))]

/-- A match at the head of the scan replaces the pattern and continues
after it. -/
theorem pyReplaceAux_head_match (pat rep tail : Str) (hne : pat ≠ []) (fuel : Nat) :
    pyReplaceAux pat rep (fuel + 1) (pat ++ tail)
      = rep ++ pyReplaceAux pat rep fuel tail := by
  rcases pat with - | ⟨c, pat⟩
  · exact absurd rfl hne
  · have hpf : (c :: pat).isPrefixOf (c :: (pat ++ tail)) = true := by
      rw [← List.cons_append]
      exact List.isPrefixOf_iff_prefix.mpr (List.prefix_append _ _)
    rw [List.cons_append, pyReplaceAux, if_pos ⟨hpf, List.cons_ne_nil c pat⟩]
    congr 1
    rw [List.length_cons, Nat.succ_sub_one, List.drop_left]

/-- Replacing the fence pattern in the closing fence alone leaves just the
newline. -/
theorem replace_ticks_close (fuel : Nat) (h4 : 4 ≤ fuel) :
    pyReplaceAux ("```".toList) [] fuel ('\n' :: "```".toList) = ['\n'] := by
  rcases fuel with - | f
  · omega
  · rw [pyReplaceAux, if_neg (by decide)]
    rcases f with - | f'
    · omega
    · rw [ticks_eq, pyReplaceAux, if_pos (by constructor <;> decide)]
      rw [show List.drop (([btick, btick, btick] : Str).length - 1) ([btick, btick] : Str)
          = [] from rfl]
      rw [show pyReplaceAux ([btick, btick, btick] : Str) [] f' [] = [] from by
        cases f' <;> rfl]
      rfl

/-- Scanning `s ++ '\n' :: "```"` for the fence pattern with `s` clean of
triple backticks removes exactly the closing fence. -/
theorem replace_ticks_mid :
    ∀ (s : Str) (fuel : Nat), ¬ ("```".toList <:+: s) →
      (s ++ '\n' :: "```".toList).length ≤ fuel →
      pyReplaceAux ("```".toList) [] fuel (s ++ '\n' :: "```".toList)
        = s ++ ['\n'] := by
  intro s
  induction s with
  | nil =>
    intro fuel h hlen
    rw [List.nil_append] at hlen ⊢
    exact replace_ticks_close fuel hlen
  | cons c s ih =>
    intro fuel h hlen
    rcases fuel with - | f
    · exact absurd hlen (by simp)
    · have hvno : ¬ ("```".toList <+: (c :: s)) := fun hp => h hp.isInfix
      have hcond :
          ¬ (("```".toList).isPrefixOf (c :: (s ++ '\n' :: "```".toList)) = true ∧
             ("```".toList : Str) ≠ []) := by
        rintro ⟨hpf, -⟩
        exact no_ticks_prefix_boundary (c :: s) ("```".toList) hvno
          (by rw [List.cons_append]
              exact List.isPrefixOf_iff_prefix.mp hpf)
      have hlen' : (s ++ '\n' :: "```".toList).length ≤ f := by
        rw [List.cons_append, List.length_cons] at hlen
        omega
      rw [List.cons_append, pyReplaceAux, if_neg hcond,
        ih f (fun hin => h (List.infix_cons hin)) hlen', ← List.cons_append]

/-- The fence pattern does not occur in `'\n' :: p` when it does not occur
in `p`. -/
theorem no_ticks_cons_nl (p : Str) (h : ¬ ("```".toList <:+: p)) :
    ¬ ("```".toList <:+: ('\n' :: p)) := by
  intro hin
  rcases List.infix_cons_iff.mp hin with hpre | hin'
  · obtain ⟨r, hr⟩ := hpre
    rw [ticks_eq] at hr
    simp only [List.cons_append] at hr
    injection hr with h1 h1t
    exact absurd h1 (by decide)
  · exact h hin'

/-- A string equal to its own strip is untouched by `dropWhile` at both
ends. -/
theorem strip_parts (p : Str) (hp : pyStrip p = p) :
    p.dropWhile pyIsSpace = p ∧ p.reverse.dropWhile pyIsSpace = p.reverse := by
  have h1 := List.dropWhile_suffix (l := p) pyIsSpace
  have h2 := List.dropWhile_suffix (l := (p.dropWhile pyIsSpace).reverse) pyIsSpace
  simp only [pyStrip] at hp
  have hlen : ((p.dropWhile pyIsSpace).reverse.dropWhile pyIsSpace).length
      = p.length := by
    have := congrArg List.length hp
    simpa using this
  have hq : (p.dropWhile pyIsSpace).length = p.length := by
    have a1 := h1.length_le
    have a2 := h2.length_le
    rw [List.length_reverse] at a2
    omega
  have hqe : p.dropWhile pyIsSpace = p := h1.eq_of_length hq
  rw [hqe] at hp
  exact ⟨hqe, List.reverse_eq_iff.mp hp⟩

/-- Stripping a stripped payload wrapped in single newlines recovers the
payload. -/
theorem pyStrip_sandwich (p : Str) (hp : pyStrip p = p) :
    pyStrip ('\n' :: (p ++ ['\n'])) = p := by
  obtain ⟨hfront, hback⟩ := strip_parts p hp
  rcases p with - | ⟨a, p⟩
  · rfl
  · have ha : pyIsSpace a = false := by
      rcases hwa : pyIsSpace a with - | -
      · rfl
      · exfalso
        rw [List.dropWhile_cons, if_pos hwa] at hfront
        have hl1 := congrArg List.length hfront
        have hl2 := (List.dropWhile_suffix (l := p) pyIsSpace).length_le
        rw [List.length_cons] at hl1
        omega
    rw [List.reverse_cons] at hback
    unfold pyStrip
    rw [List.dropWhile_cons_of_pos (show pyIsSpace '\n' = true from rfl)]
    rw [List.cons_append, List.dropWhile_cons_of_neg (by simp [ha])]
    simp only [List.reverse_cons, List.reverse_append, List.reverse_nil, List.nil_append,
      List.cons_append]
    rw [List.dropWhile_cons_of_pos (show pyIsSpace '\n' = true from rfl)]
    rw [hback]
    simp

/-- C2 amended: when the JSON payload contains no triple backtick and
carries no surrounding whitespace of its own, the cleanup of line 84
removes exactly the markdown fences and returns the payload byte for
byte — in particular the cleaned text parses as JSON whenever the
payload does. -/
theorem c2_fence_strip_exact (p : Str)
    (hTicks : ¬ ("```".toList <:+: p)) (hStrip : pyStrip p = p) :
    cleanReply ("```json\n".toList ++ p ++ "\n```".toList) = p ∧
    ((jsonLoads p).isSome = true →
      (jsonLoads (cleanReply ("```json\n".toList ++ p ++ "\n```".toList))).isSome
        = true) := by
  have hshape : ("```json\n".toList ++ p ++ "\n```".toList : Str)
      = "```json".toList ++ (('\n' :: p) ++ '\n' :: "```".toList) := by
    rw [show ("```json\n".toList : Str) = "```json".toList ++ ['\n'] from rfl,
      show ("\n```".toList : Str) = '\n' :: "```".toList from rfl]
    simp [List.append_assoc]
  have hmain : cleanReply ("```json\n".toList ++ p ++ "\n```".toList) = p := by
    unfold cleanReply pyReplace
    rw [hshape]
    rw [show ("```json".toList ++ (('\n' :: p) ++ '\n' :: "```".toList)).length
        = ((('\n' :: p) ++ '\n' :: "```".toList).length + 6) + 1 from by
      rw [List.length_append, show ("```json".toList : Str).length = 7 from rfl]
      omega]
    rw [pyReplaceAux_head_match _ _ _ (by decide) _]
    rw [pyReplaceAux_no_occurrence _ _ _ _
      (no_json_fence_occurs ('\n' :: p) (no_ticks_cons_nl p hTicks))]
    rw [List.nil_append]
    rw [replace_ticks_mid ('\n' :: p) _ (no_ticks_cons_nl p hTicks) le_rfl]
    rw [List.cons_append]
    exact pyStrip_sandwich p hStrip
  refine ⟨hmain, fun h => ?_⟩
  rw [hmain]
  exact h

/-- Witness for C2's amended statement at a clean payload. -/
theorem c2_fence_strip_exact_witness :
    cleanReply ("```json\n".toList ++ ("\x7b\"a\": 1\x7d".toList : Str) ++ "\n```".toList)
      = "\x7b\"a\": 1\x7d".toList :=
  (c2_fence_strip_exact ("\x7b\"a\": 1\x7d".toList) (by decide) (by decide)).1

/-- Counterexample to C2 as stated: a valid JSON payload containing a
triple backtick inside a string literal is altered by the global
`replace` — the cleaned text is not the unwrapped payload. -/
theorem c2_counterexample :
    (jsonLoads ("\x7b\"a\": \"``` \"\x7d".toList)).isSome = true ∧
    cleanReply ("```json\n".toList ++ ("\x7b\"a\": \"``` \"\x7d".toList : Str) ++ "\n```".toList)
      ≠ ("\x7b\"a\": \"``` \"\x7d".toList : Str) ∧
    cleanReply ("```json\n".toList ++ ("\x7b\"a\": \"``` \"\x7d".toList : Str) ++ "\n```".toList)
      = ("\x7b\"a\": \" \"\x7d".toList : Str) := by
  refine ⟨rfl, ?_, rfl⟩
  decide

end OTPortal
